import Mathlib

/-!
A shallow embedding of the mgoHelpers library (collection.go, main.go) and a
verification of its specified behaviour.

Modelling conventions:
* `bson.ObjectId` values are byte lists (`Bytes`); the empty list is the unset id.
* Factory construction parameters (Go `interface{}` values) are modelled by `Param`.
* Go panics are modelled with `Except PanicV`: a result `Except.error pv` means the
  computation panicked with value `pv`; `recover` blocks turn such results back into
  plain values.  A factory is `Param → Except PanicV MongoEntryV`: it either returns
  an entry or panics.  (The Go factory also receives the collection pointer; the
  model elides that argument, since a structure cannot refer to itself in a field
  type, and no behaviour modelled here depends on it.)
* Every operation additionally returns the list of `Event`s it performed, in order:
  lock acquisition/release, factory invocations, and the storage primitives issued
  to the external driver.  The external store's responses are parameters of the
  model (`MongoDbM`), since they are produced by the mgo driver, outside this
  repository.
* A nil Go interface value of type `MongoEntry` is `none : Option MongoEntryV`.
* Go strings are modelled as their character sequences; all inputs relevant to the
  identity parser are ASCII, where byte length and character length agree, and a
  multi-byte character is never a hexadecimal digit, so the parser's accept/reject
  verdict is unchanged by this identification.
-/

namespace MgoHelpers

/-- Raw bytes of a BSON ObjectId: 12 bytes when valid, `[]` when unset. -/
abbrev Bytes := List Nat

/-- Factory construction parameters (Go: an `interface{}` value), modelled concretely. -/
abbrev Param := Nat

/-- The value carried by a Go panic. -/
abbrev PanicV := Nat

/-- The error values observable from the library: the three errors declared in
main.go, the ObjectId-parse error, and the driver's errors (`mgo.ErrNotFound`
and any other driver error). -/
inductive GoErr where
  | noFactoryFunc
  | bulkOpAborted
  | panicked
  | invalidObjectId (s : String)
  | notFound
  | dbErr (n : Nat)
deriving DecidableEq, Repr

/-- A domain entry: its identity plus its non-identity fields, as a field map.
The Collection only ever touches the identity (the `MongoEntry` capability:
`BsonID` / `SetBsonID`); the remaining fields ride along opaquely. -/
structure MongoEntryV where
  id : Bytes
  fields : List (String × Nat)
deriving DecidableEq, Repr

def MongoEntryV.BsonID (e : MongoEntryV) : Bytes := e.id

def MongoEntryV.SetBsonID (e : MongoEntryV) (b : Bytes) : MongoEntryV := { e with id := b }

/-- collection.go: `EntryErrorPair` — one constructed entry paired with its
construction error. -/
structure EntryErrorPair where
  Entry : Option MongoEntryV
  Error : Option GoErr
deriving DecidableEq, Repr

abbrev EntryErrorPairs := List EntryErrorPair

/-- collection.go: `CheckPartFail` — true iff some pair carries an error. -/
def EntryErrorPairs.CheckPartFail (p : EntryErrorPairs) : Bool :=
  p.any fun v => v.Error.isSome

/-- collection.go: `MakeEntrySlice` — the entries of the pairs, in order. -/
def EntryErrorPairs.MakeEntrySlice (p : EntryErrorPairs) : List (Option MongoEntryV) :=
  p.map fun v => v.Entry

/-- One storage primitive issued to the external driver (the `MongoDb` methods in
main.go).  `updateSet coll id v` records that `MongoDb.Update` was called, which
sends the update document `{$set: v}` under the exact-`_id` selector. -/
inductive StorageOp where
  | insert (coll : String) (docs : List (Option MongoEntryV))
  | findOne (coll : String) (id : String)
  | findAll (coll : String)
  | updateSet (coll : String) (id : Bytes) (v : MongoEntryV)
  | removeId (coll : String) (id : Bytes)
  | removeAll (coll : String)
deriving DecidableEq, Repr

/-- The observable events of one Collection operation, in program order. -/
inductive Event where
  | lockAcquire
  | lockRelease
  | factoryCall (p : Param)
  | store (op : StorageOp)
deriving DecidableEq, Repr

/-- The storage primitives among a list of events, in order. -/
def storeOps : List Event → List StorageOp
  | [] => []
  | Event.store op :: rest => op :: storeOps rest
  | Event.lockAcquire :: rest => storeOps rest
  | Event.lockRelease :: rest => storeOps rest
  | Event.factoryCall _ :: rest => storeOps rest

/-- True iff the event list contains no lock events. -/
def lockFree : List Event → Bool
  | [] => true
  | Event.lockAcquire :: _ => false
  | Event.lockRelease :: _ => false
  | Event.store _ :: rest => lockFree rest
  | Event.factoryCall _ :: rest => lockFree rest

/-- The external store's responses to each primitive (main.go: `MongoDb`).  Each
field gives the driver's result for a call with the given arguments; `findAllRes`
may panic (a decode fault inside the driver while filling the destination). -/
structure MongoDbM where
  insertRes : String → List (Option MongoEntryV) → Option GoErr
  findOneRes : String → String → Option GoErr
  findAllRes : String → Except PanicV (Option GoErr)
  updateRes : String → Bytes → MongoEntryV → Option GoErr
  removeRes : String → Bytes → Option GoErr
  removeAllRes : String → Option GoErr

/-- main.go: `MongoDb.Insert` — one batched insert of the given documents. -/
def MongoDbM.Insert (db : MongoDbM) (coll : String) (vs : List (Option MongoEntryV)) :
    Option GoErr × List Event :=
  (db.insertRes coll vs, [Event.store (StorageOp.insert coll vs)])

/-- main.go: `MongoDb.FindById` — returns `mgo.ErrNotFound != FindId(id).One(v)`:
`false` exactly when the driver reports not-found; any other driver error (and
success) yields `true`. -/
def MongoDbM.FindById (db : MongoDbM) (coll : String) (id : String) : Bool × List Event :=
  (decide (¬ db.findOneRes coll id = some GoErr.notFound),
    [Event.store (StorageOp.findOne coll id)])

/-- main.go: `MongoDb.FindAll`. -/
def MongoDbM.FindAll (db : MongoDbM) (coll : String) :
    Except PanicV (Option GoErr) × List Event :=
  (db.findAllRes coll, [Event.store (StorageOp.findAll coll)])

/-- main.go: `MongoDb.Update` — issues `Update({_id: id}, {$set: v})`. -/
def MongoDbM.Update (db : MongoDbM) (coll : String) (id : Bytes) (v : MongoEntryV) :
    Option GoErr × List Event :=
  (db.updateRes coll id v, [Event.store (StorageOp.updateSet coll id v)])

/-- main.go: `MongoDb.Remove` — removes all documents matching the exact-id filter. -/
def MongoDbM.Remove (db : MongoDbM) (coll : String) (id : Bytes) : Option GoErr × List Event :=
  (db.removeRes coll id, [Event.store (StorageOp.removeId coll id)])

/-- main.go: `MongoDb.RemoveAll`. -/
def MongoDbM.RemoveAll (db : MongoDbM) (coll : String) : Option GoErr × List Event :=
  (db.removeAllRes coll, [Event.store (StorageOp.removeAll coll)])

/-- The numeric value of one hexadecimal digit, as in Go's `encoding/hex`. -/
def hexVal (ch : Char) : Option Nat :=
  if '0' ≤ ch ∧ ch ≤ '9' then some (ch.toNat - '0'.toNat)
  else if 'a' ≤ ch ∧ ch ≤ 'f' then some (ch.toNat - 'a'.toNat + 10)
  else if 'A' ≤ ch ∧ ch ≤ 'F' then some (ch.toNat - 'A'.toNat + 10)
  else none

/-- Go's `hex.Decode`: decodes consecutive digit pairs, failing on a stray digit
or any non-hexadecimal character. -/
def hexDecodePairs : List Char → Option (List Nat)
  | [] => some []
  | [_] => none
  | a :: b :: rest =>
    match hexVal a, hexVal b, hexDecodePairs rest with
    | some x, some y, some tail => some ((16 * x + y) :: tail)
    | _, _, _ => none

/-- `bson.ObjectId.UnmarshalJSON` applied to the quoted input `"s"`, as built by
`GetObjectIDFromString`: the empty string is accepted as the unset id; otherwise
the input must be exactly 24 hexadecimal characters, decoded to 12 bytes.
(The `null` branch of the unmarshaller is unreachable here because the data
always starts with a quote.) -/
def unmarshalObjectIdJSON (s : String) : Option Bytes :=
  if s.data = [] then some []
  else if s.data.length = 24 then hexDecodePairs s.data
  else none

/-- The value produced by the `bson.NewObjectId()` call inside
`GetObjectIDFromString`: a fresh, always-valid 12-byte id.  Its bytes are
time- and counter-dependent and never influence control flow, so the model
fixes one representative valid value. -/
def newObjectId : Bytes := [0, 1, 2, 3, 4, 5, 6, 7, 8, 9, 10, 11]

/-- main.go: `GetObjectIDFromString` — allocates a fresh id `b`, then unmarshals
the quoted input over it.  On unmarshal success `b` is overwritten with the
parsed value; on failure `b` is left as the freshly generated id and the parse
error is returned alongside it. -/
def GetObjectIDFromString (fresh : Bytes) (s : String) : Bytes × Option GoErr :=
  match unmarshalObjectIdJSON s with
  | some b => (b, none)
  | none => (fresh, some (GoErr.invalidObjectId s))

/-- `bson.ObjectId.Valid`: an id is usable iff it has exactly 12 bytes. -/
def ObjectIdValid (b : Bytes) : Bool := b.length == 12

/-- collection.go: `MongoCollection` — storage info plus the optional factory.
(The embedded `MongoStorageInfo` of main.go is flattened into the two fields.) -/
structure MongoCollectionM where
  Database : MongoDbM
  Collection : String
  factoryFunc : Option (Param → Except PanicV MongoEntryV)

/-- collection.go: `MutexExec` — runs the body under the collection mutex.  The
unlock is deferred, so the release event is emitted even when the body panics. -/
def MutexExec {α : Type} (r : α × List Event) : α × List Event :=
  (r.1, Event.lockAcquire :: r.2 ++ [Event.lockRelease])

/-- collection.go: `SetFactoryFunc`. -/
def MongoCollectionM.SetFactoryFunc (c : MongoCollectionM)
    (f : Option (Param → Except PanicV MongoEntryV)) : MongoCollectionM :=
  { c with factoryFunc := f }

/-- collection.go: `insertCore` — one batched driver insert of the entries. -/
def MongoCollectionM.insertCore (c : MongoCollectionM) (entries : List (Option MongoEntryV)) :
    Option GoErr × List Event :=
  c.Database.Insert c.Collection entries

/-- collection.go: `makeOne` — nil entry and `errNoFactoryFunc` when no factory is
installed; otherwise invokes the factory (which may panic). -/
def MongoCollectionM.makeOne (c : MongoCollectionM) (p : Param) :
    Except PanicV (Option MongoEntryV × Option GoErr) × List Event :=
  match c.factoryFunc with
  | none => (Except.ok (none, some GoErr.noFactoryFunc), [])
  | some f =>
    match f p with
    | Except.error pv => (Except.error pv, [Event.factoryCall p])
    | Except.ok e => (Except.ok (some e, none), [Event.factoryCall p])

/-- The `for` loop of collection.go's `createCore`: builds the entry/error pairs
in input order; a factory panic aborts the loop. -/
def MongoCollectionM.createCoreLoop (c : MongoCollectionM) :
    List Param → Except PanicV EntryErrorPairs × List Event
  | [] => (Except.ok [], [])
  | p :: ps =>
    match c.makeOne p with
    | (Except.error pv, evs) => (Except.error pv, evs)
    | (Except.ok pr, evs) =>
      match MongoCollectionM.createCoreLoop c ps with
      | (Except.error pv, evs2) => (Except.error pv, evs ++ evs2)
      | (Except.ok prs, evs2) => (Except.ok (EntryErrorPair.mk pr.1 pr.2 :: prs), evs ++ evs2)

/-- collection.go: `createCore` — builds all pairs, aborts with
`errBulkOpAborted` when any pair carries an error, otherwise issues the single
batched insert and returns the entries together with the driver's result. -/
def MongoCollectionM.createCore (c : MongoCollectionM) (ps : List Param) :
    Except PanicV (Option (List (Option MongoEntryV)) × Option GoErr) × List Event :=
  match c.createCoreLoop ps with
  | (Except.error pv, evs) => (Except.error pv, evs)
  | (Except.ok pairs, evs) =>
    if EntryErrorPairs.CheckPartFail pairs then
      (Except.ok (none, some GoErr.bulkOpAborted), evs)
    else
      let r := c.insertCore (EntryErrorPairs.MakeEntrySlice pairs)
      (Except.ok (some (EntryErrorPairs.MakeEntrySlice pairs), r.1), evs ++ r.2)

/-- collection.go: `Insert`. -/
def MongoCollectionM.Insert (c : MongoCollectionM) (entry : Option MongoEntryV) :
    Option GoErr × List Event :=
  MutexExec (c.insertCore [entry])

/-- collection.go: `InsertBulk`. -/
def MongoCollectionM.InsertBulk (c : MongoCollectionM) (entries : List (Option MongoEntryV)) :
    Option GoErr × List Event :=
  MutexExec (c.insertCore entries)

/-- The code of `Create` after the mutex section: `if err != nil return nil, err;
return entries[0], nil`.  Indexing a nil or empty slice panics (value `0`);
`Create` installs no `recover`, so a panic from `createCore` passes through. -/
def createPost :
    Except PanicV (Option (List (Option MongoEntryV)) × Option GoErr) →
    Except PanicV (Option MongoEntryV × Option GoErr)
  | Except.error pv => Except.error pv
  | Except.ok (_, some e) => Except.ok (none, some e)
  | Except.ok (some (e :: _), none) => Except.ok (e, none)
  | Except.ok (some [], none) => Except.error 0
  | Except.ok (none, none) => Except.error 0

/-- collection.go: `Create`. -/
def MongoCollectionM.Create (c : MongoCollectionM) (p : Param) :
    Except PanicV (Option MongoEntryV × Option GoErr) × List Event :=
  let r := MutexExec (c.createCore [p])
  (createPost r.1, r.2)

/-- The `recover` and tail of `CreateBulk`: a panic anywhere inside becomes the
result `(nil, errPanic)`; otherwise `if err != nil return nil, err; return
entries, nil`. -/
def createBulkPost :
    Except PanicV (Option (List (Option MongoEntryV)) × Option GoErr) →
    Option (List (Option MongoEntryV)) × Option GoErr
  | Except.error _ => (none, some GoErr.panicked)
  | Except.ok (_, some e) => (none, some e)
  | Except.ok (entriesOpt, none) => (entriesOpt, none)

/-- collection.go: `CreateBulk` — the only create-family method with a `recover`. -/
def MongoCollectionM.CreateBulk (c : MongoCollectionM) (ps : List Param) :
    (Option (List (Option MongoEntryV)) × Option GoErr) × List Event :=
  let r := MutexExec (c.createCore ps)
  (createBulkPost r.1, r.2)

/-- collection.go: `Read` — delegates to `FindById`; takes no lock.  (The Go
out-parameter receiving the decoded document is filled by the driver and is not
part of the model.) -/
def MongoCollectionM.Read (c : MongoCollectionM) (entryID : String) : Bool × List Event :=
  c.Database.FindById c.Collection entryID

/-- The `recover` of `ReadAll`: a decode panic becomes `errPanic`. -/
def readAllPost : Except PanicV (Option GoErr) → Option GoErr
  | Except.error _ => some GoErr.panicked
  | Except.ok e => e

/-- collection.go: `ReadAll` — delegates to `FindAll` under a `recover`; no lock. -/
def MongoCollectionM.ReadAll (c : MongoCollectionM) : Option GoErr × List Event :=
  let r := c.Database.FindAll c.Collection
  (readAllPost r.1, r.2)

/-- The closure body of collection.go's `Update`: parse the id (returning the
parse error with a nil entry on failure); otherwise call the factory *directly*
(a nil factory is a nil-function-call panic, value `1`), stamp the parsed id
onto the new entry, and issue the driver update keyed by that id. -/
def MongoCollectionM.updateBody (c : MongoCollectionM) (entryID : String) (p : Param) :
    Except PanicV (Option MongoEntryV × Option GoErr) × List Event :=
  match GetObjectIDFromString newObjectId entryID with
  | (_, some idParseErr) => (Except.ok (none, some idParseErr), [])
  | (b, none) =>
    match c.factoryFunc with
    | none => (Except.error 1, [])
    | some f =>
      match f p with
      | Except.error pv => (Except.error pv, [Event.factoryCall p])
      | Except.ok e0 =>
        let r := c.Database.Update c.Collection b (e0.SetBsonID b)
        (Except.ok (some (e0.SetBsonID b), r.1), Event.factoryCall p :: r.2)

/-- collection.go: `Update` — the body under the mutex, with no `recover`. -/
def MongoCollectionM.Update (c : MongoCollectionM) (entryID : String) (p : Param) :
    Except PanicV (Option MongoEntryV × Option GoErr) × List Event :=
  MutexExec (c.updateBody entryID p)

/-- The closure body of collection.go's `Delete`. -/
def MongoCollectionM.deleteBody (c : MongoCollectionM) (entryID : String) :
    Option GoErr × List Event :=
  match GetObjectIDFromString newObjectId entryID with
  | (_, some idParseErr) => (some idParseErr, [])
  | (b, none) => c.Database.Remove c.Collection b

/-- collection.go: `Delete`. -/
def MongoCollectionM.Delete (c : MongoCollectionM) (entryID : String) :
    Option GoErr × List Event :=
  MutexExec (c.deleteBody entryID)

/-- collection.go: `DeleteAll`. -/
def MongoCollectionM.DeleteAll (c : MongoCollectionM) : Option GoErr × List Event :=
  MutexExec (c.Database.RemoveAll c.Collection)

/-- collection.go: `NewMongoCollection` — binds session and name; no factory yet. -/
def NewMongoCollection (db : MongoDbM) (collName : String) : MongoCollectionM :=
  { Database := db, Collection := collName, factoryFunc := none }

/-- Setting one field of a stored document (MongoDB `$set` on one key):
overwrite the key when present, append it otherwise. -/
def setField (doc : List (String × Nat)) (kv : String × Nat) : List (String × Nat) :=
  if doc.any fun f => f.1 == kv.1 then
    doc.map fun f => if f.1 == kv.1 then (f.1, kv.2) else f
  else doc ++ [kv]

/-- MongoDB operator semantics (external to the repository) of the update
document the code issues, `{$set: v}`: every field of `v` is set in the stored
document, and fields of the stored document that `v` does not mention are kept —
a partial patch. -/
def applySetUpdate (stored : List (String × Nat)) (v : List (String × Nat)) :
    List (String × Nat) :=
  v.foldl setField stored

/-- Modelled from the spec: a full-document replace stores exactly the
replacement's fields, discarding every previously stored field. -/
def fullDocReplace (_stored : List (String × Nat)) (v : List (String × Nat)) :
    List (String × Nat) :=
  v

/-- The entry a factory result contributes: the constructed entry on success,
nil when the invocation panicked (the latter never reaches a pair, since a panic
aborts the loop). -/
def factoryEntry : Except PanicV MongoEntryV → Option MongoEntryV
  | Except.ok e => some e
  | Except.error _ => none

/-- Modelled from the spec: the canonical textual form of an identity is a
24-character hexadecimal string; any other input is malformed. -/
def canonicalIdentityForm (s : String) : Bool :=
  s.data.length == 24 && s.data.all fun ch => (hexVal ch).isSome

/-- A driver model whose every response is success. -/
def dbNull : MongoDbM :=
  { insertRes := fun _ _ => none
    findOneRes := fun _ _ => none
    findAllRes := fun _ => Except.ok none
    updateRes := fun _ _ _ => none
    removeRes := fun _ _ => none
    removeAllRes := fun _ => none }

/-- A collection with no factory installed. -/
def noFacColl : MongoCollectionM := { Database := dbNull, Collection := "c", factoryFunc := none }

/-- A factory that records its parameter in a `name` field and never fails. -/
def nameFactory : Param → Except PanicV MongoEntryV :=
  fun p => Except.ok { id := [], fields := [("name", p)] }

/-- A collection with `nameFactory` installed. -/
def facColl : MongoCollectionM :=
  { Database := dbNull, Collection := "c", factoryFunc := some nameFactory }

/-- A factory that always panics with value 7. -/
def panicFactory : Param → Except PanicV MongoEntryV := fun _ => Except.error 7

/-- A collection whose factory panics. -/
def panicColl : MongoCollectionM :=
  { Database := dbNull, Collection := "c", factoryFunc := some panicFactory }

/-- A driver whose `FindAll` decode panics with value 3. -/
def dbFindPanics : MongoDbM := { dbNull with findAllRes := fun _ => Except.error 3 }

/-- A collection over the panicking-decode driver. -/
def panicDbColl : MongoCollectionM :=
  { Database := dbFindPanics, Collection := "c", factoryFunc := none }

/-- A driver whose single-document lookup always fails with a generic driver
error (e.g. a network failure) that is not `ErrNotFound`. -/
def dbFindErrs : MongoDbM := { dbNull with findOneRes := fun _ _ => some (GoErr.dbErr 0) }

/-- A collection over the erroring-lookup driver. -/
def errColl : MongoCollectionM :=
  { Database := dbFindErrs, Collection := "c", factoryFunc := none }

/-- A well-formed 24-character hexadecimal id string. -/
def sampleId : String := "000102030405060708090a0b"

/-- The bytes `sampleId` decodes to. -/
def sampleIdBytes : Bytes := [0, 1, 2, 3, 4, 5, 6, 7, 8, 9, 10, 11]

/-! ## Helper lemmas -/

theorem lockFree_append (a b : List Event) : lockFree (a ++ b) = (lockFree a && lockFree b) := by
  induction a with
  | nil => simp [lockFree]
  | cons e rest ih => cases e <;> simp [lockFree, ih]

theorem storeOps_append (a b : List Event) : storeOps (a ++ b) = storeOps a ++ storeOps b := by
  induction a with
  | nil => simp [storeOps]
  | cons e rest ih => cases e <;> simp [storeOps, ih]

theorem lockFree_makeOne (c : MongoCollectionM) (p : Param) :
    lockFree (c.makeOne p).2 = true := by
  rcases hf : c.factoryFunc with _ | f
  · simp [MongoCollectionM.makeOne, hf, lockFree]
  · rcases hfp : f p with pv | e <;> simp [MongoCollectionM.makeOne, hf, hfp, lockFree]

theorem storeOps_makeOne (c : MongoCollectionM) (p : Param) :
    storeOps (c.makeOne p).2 = [] := by
  rcases hf : c.factoryFunc with _ | f
  · simp [MongoCollectionM.makeOne, hf, storeOps]
  · rcases hfp : f p with pv | e <;> simp [MongoCollectionM.makeOne, hf, hfp, storeOps]

theorem lockFree_createCoreLoop (c : MongoCollectionM) (ps : List Param) :
    lockFree (c.createCoreLoop ps).2 = true := by
  induction ps with
  | nil => rfl
  | cons p ps ih =>
    unfold MongoCollectionM.createCoreLoop
    have hm := lockFree_makeOne c p
    rcases hmk : c.makeOne p with ⟨r, evs⟩
    rw [hmk] at hm
    cases r with
    | error pv => simpa using hm
    | ok pr =>
      rcases hloop : c.createCoreLoop ps with ⟨r2, evs2⟩
      rw [hloop] at ih
      cases r2 <;> simp_all [lockFree_append]

theorem storeOps_createCoreLoop (c : MongoCollectionM) (ps : List Param) :
    storeOps (c.createCoreLoop ps).2 = [] := by
  induction ps with
  | nil => rfl
  | cons p ps ih =>
    unfold MongoCollectionM.createCoreLoop
    have hm := storeOps_makeOne c p
    rcases hmk : c.makeOne p with ⟨r, evs⟩
    rw [hmk] at hm
    cases r with
    | error pv => simpa using hm
    | ok pr =>
      rcases hloop : c.createCoreLoop ps with ⟨r2, evs2⟩
      rw [hloop] at ih
      cases r2 <;> simp_all [storeOps_append]

theorem lockFree_insertCore (c : MongoCollectionM) (es : List (Option MongoEntryV)) :
    lockFree (c.insertCore es).2 = true := rfl

theorem lockFree_createCore (c : MongoCollectionM) (ps : List Param) :
    lockFree (c.createCore ps).2 = true := by
  unfold MongoCollectionM.createCore
  have hl := lockFree_createCoreLoop c ps
  rcases hloop : c.createCoreLoop ps with ⟨r, evs⟩
  rw [hloop] at hl
  cases r with
  | error pv => simpa using hl
  | ok pairs =>
    by_cases hc : EntryErrorPairs.CheckPartFail pairs
    · simp_all
    · simp_all [lockFree_append, lockFree_insertCore]

theorem lockFree_updateBody (c : MongoCollectionM) (s : String) (p : Param) :
    lockFree (c.updateBody s p).2 = true := by
  rcases hid : GetObjectIDFromString newObjectId s with ⟨b, err⟩
  cases err with
  | some e => simp [MongoCollectionM.updateBody, hid, lockFree]
  | none =>
    rcases hf : c.factoryFunc with _ | f
    · simp [MongoCollectionM.updateBody, hid, hf, lockFree]
    · rcases hfp : f p with pv | e0 <;>
        simp [MongoCollectionM.updateBody, hid, hf, hfp, lockFree, MongoDbM.Update]

theorem lockFree_deleteBody (c : MongoCollectionM) (s : String) :
    lockFree (c.deleteBody s).2 = true := by
  rcases hid : GetObjectIDFromString newObjectId s with ⟨b, err⟩
  cases err with
  | some e => simp [MongoCollectionM.deleteBody, hid, lockFree]
  | none => simp [MongoCollectionM.deleteBody, hid, MongoDbM.Remove, lockFree]

/-- If the hex pair decoder succeeds, every input character was a hex digit. -/
theorem hexDecodePairs_all_hex :
    ∀ (cs : List Char) (bs : List Nat), hexDecodePairs cs = some bs →
      (cs.all fun ch => (hexVal ch).isSome) = true
  | [], _, _ => rfl
  | [c], _, h => by simp [hexDecodePairs] at h
  | a :: b :: rest, bs, h => by
    unfold hexDecodePairs at h
    cases ha : hexVal a with
    | none => rw [ha] at h; simp at h
    | some x =>
      cases hb : hexVal b with
      | none => rw [ha, hb] at h; simp at h
      | some y =>
        cases hr : hexDecodePairs rest with
        | none => rw [ha, hb, hr] at h; simp at h
        | some tl =>
          have ih := hexDecodePairs_all_hex rest tl hr
          simp [List.all_cons, ha, hb, ih]

/-- A nonempty input that is not a 24-character hexadecimal string fails to
unmarshal. -/
theorem unmarshal_malformed (s : String) (hne : s ≠ "")
    (hmal : canonicalIdentityForm s = false) : unmarshalObjectIdJSON s = none := by
  unfold unmarshalObjectIdJSON
  have hd : s.data ≠ [] := by
    intro h
    apply hne
    cases s with
    | mk l =>
      have hl : l = [] := h
      subst hl
      rfl
  rw [if_neg hd]
  by_cases hlen : s.data.length = 24
  · rw [if_pos hlen]
    cases hdec : hexDecodePairs s.data with
    | none => rfl
    | some bs =>
      exfalso
      have hall := hexDecodePairs_all_hex s.data bs hdec
      unfold canonicalIdentityForm at hmal
      rw [hall, hlen] at hmal
      simp at hmal
  · rw [if_neg hlen]

/-- The events of `CreateBulk` are those of `createCore`, lock-bracketed. -/
theorem createBulk_events (c : MongoCollectionM) (ps : List Param) :
    (c.CreateBulk ps).2 = Event.lockAcquire :: (c.createCore ps).2 ++ [Event.lockRelease] := rfl

/-- The result of `CreateBulk` is the recover-wrapped result of `createCore`. -/
theorem createBulk_fst (c : MongoCollectionM) (ps : List Param) :
    (c.CreateBulk ps).1 = createBulkPost (c.createCore ps).1 := rfl

/-- The loop of `createCore`, when the factory is installed and succeeds on every
input, produces exactly the constructed entries paired with no errors, in input
order, emitting one factory-call event per input. -/
theorem createCoreLoop_all_ok (c : MongoCollectionM) (f : Param → Except PanicV MongoEntryV)
    (hf : c.factoryFunc = some f) :
    ∀ ps : List Param, (∀ p ∈ ps, ∃ e, f p = Except.ok e) →
      c.createCoreLoop ps =
        (Except.ok (ps.map fun p => EntryErrorPair.mk (factoryEntry (f p)) none),
          ps.map Event.factoryCall)
  | [], _ => rfl
  | p :: ps, h => by
    obtain ⟨e, he⟩ := h p (List.mem_cons_self p ps)
    have ih := createCoreLoop_all_ok c f hf ps (fun q hq => h q (List.mem_cons_of_mem p hq))
    simp [MongoCollectionM.createCoreLoop, MongoCollectionM.makeOne, hf, he, ih, factoryEntry]

theorem checkPartFail_map_ok (ps : List Param) (g : Param → Option MongoEntryV) :
    EntryErrorPairs.CheckPartFail (ps.map fun p => EntryErrorPair.mk (g p) none) = false := by
  induction ps with
  | nil => rfl
  | cons p ps ih => simp [EntryErrorPairs.CheckPartFail] at ih ⊢

theorem storeOps_factoryCalls (ps : List Param) :
    storeOps (ps.map Event.factoryCall) = [] := by
  induction ps with
  | nil => rfl
  | cons p ps ih => simpa [storeOps] using ih

/-! ## Claims -/

/-- C1 counterexample: `Create` on a collection with no factory installed does
NOT return the `NoFactory` error — at a concrete input it returns the
`BulkOperationAborted` error instead (while indeed issuing no write). -/
theorem C1_counterexample :
    (noFacColl.Create 0).1 = Except.ok (none, some GoErr.bulkOpAborted) ∧
      GoErr.bulkOpAborted ≠ GoErr.noFactoryFunc ∧
      storeOps (noFacColl.Create 0).2 = [] :=
  ⟨rfl, by decide, rfl⟩

/-- C1 (amended): for every driver, collection name and input, `Create` on a
collection whose factory has not been installed returns the
`BulkOperationAborted` error — `makeOne`'s `NoFactory` error is folded into the
bulk-abort check of `createCore` — and issues no write: the whole event trace
is the bare lock bracket. -/
theorem C1_create_without_factory (db : MongoDbM) (name : String) (p : Param) :
    MongoCollectionM.Create { Database := db, Collection := name, factoryFunc := none } p =
      (Except.ok (none, some GoErr.bulkOpAborted),
        [Event.lockAcquire, Event.lockRelease]) := rfl

/-- C2 (code behaviour at the failing input): when the underlying lookup fails
with a generic driver error that is not `ErrNotFound`, `Read` returns `true`,
not `false` — the code maps every non-not-found outcome (including read errors)
to "found", contradicting the claim that `false` covers the read-error case. -/
theorem C2_read_error_returns_true :
    errColl.Read sampleId = (true, [Event.store (StorageOp.findOne "c" sampleId)]) := rfl

/-- C3 counterexample: on a concrete well-formed id, the one storage operation
`Update` issues is the `$set` update, and `$set` semantics is a partial patch,
not a full-document replace: a stored field the replacement does not mention
survives the update. -/
theorem C3_counterexample :
    storeOps (facColl.Update sampleId 0).2 =
      [StorageOp.updateSet "c" sampleIdBytes { id := sampleIdBytes, fields := [("name", 0)] }] ∧
      applySetUpdate [("extra", 1)] [("name", 0)] ≠
        fullDocReplace [("extra", 1)] [("name", 0)] :=
  ⟨rfl, by decide⟩

/-- C3 (amended): for every well-formed id and params, with the factory
installed and succeeding, `Update` builds a replacement entry via the factory,
assigns it the parsed identity, and issues exactly one storage operation keyed
by that identity: the `$set` update, whose store semantics merges the
replacement's fields into the stored document (a partial patch), not a
full-document replace (C3_counterexample). -/
theorem C3_update_issues_set_update (c : MongoCollectionM)
    (f : Param → Except PanicV MongoEntryV) (s : String) (p : Param) (b : Bytes)
    (e : MongoEntryV) (hf : c.factoryFunc = some f) (hp : f p = Except.ok e)
    (hs : unmarshalObjectIdJSON s = some b) :
    c.Update s p =
      (Except.ok (some (e.SetBsonID b), c.Database.updateRes c.Collection b (e.SetBsonID b)),
        [Event.lockAcquire, Event.factoryCall p,
          Event.store (StorageOp.updateSet c.Collection b (e.SetBsonID b)),
          Event.lockRelease]) := by
  unfold MongoCollectionM.Update MongoCollectionM.updateBody GetObjectIDFromString
  rw [hs]
  simp [hf, hp, MongoDbM.Update, MutexExec]

/-- C3 witness: the amended update fact at concrete inputs. -/
theorem C3_update_issues_set_update_witness :
    facColl.Update sampleId 1 =
      (Except.ok (some { id := sampleIdBytes, fields := [("name", 1)] }, none),
        [Event.lockAcquire, Event.factoryCall 1,
          Event.store (StorageOp.updateSet "c" sampleIdBytes
            { id := sampleIdBytes, fields := [("name", 1)] }),
          Event.lockRelease]) :=
  C3_update_issues_set_update facColl nameFactory sampleId 1 sampleIdBytes
    { id := [], fields := [("name", 1)] } rfl rfl (by decide)

/-- C4: whenever the entry/error pairs built by the `createCore` loop report at
least one construction failure, `CreateBulk` returns the `BulkOperationAborted`
error and its event trace contains zero storage operations — no entry reaches
storage unless every construction succeeded. -/
theorem C4_bulk_abort (c : MongoCollectionM) (ps : List Param) (pairs : EntryErrorPairs)
    (hloop : (c.createCoreLoop ps).1 = Except.ok pairs)
    (hfail : EntryErrorPairs.CheckPartFail pairs = true) :
    (c.CreateBulk ps).1 = (none, some GoErr.bulkOpAborted) ∧
      storeOps (c.CreateBulk ps).2 = [] := by
  have hso := storeOps_createCoreLoop c ps
  rcases hl : c.createCoreLoop ps with ⟨r, evs⟩
  rw [hl] at hso
  have hr : r = Except.ok pairs := by rw [hl] at hloop; exact hloop
  subst hr
  constructor
  · rw [createBulk_fst]
    unfold MongoCollectionM.createCore
    rw [hl]
    simp [hfail, createBulkPost]
  · rw [createBulk_events]
    unfold MongoCollectionM.createCore
    rw [hl]
    simp [hfail, storeOps, storeOps_append, hso]

/-- C4 witness: with no factory installed, the single pair carries an error, and
the concrete `CreateBulk` aborts with zero writes. -/
theorem C4_bulk_abort_witness :
    ((noFacColl.createCoreLoop [0]).1 =
        Except.ok [{ Entry := none, Error := some GoErr.noFactoryFunc }] ∧
      EntryErrorPairs.CheckPartFail [{ Entry := none, Error := some GoErr.noFactoryFunc }] = true) ∧
      ((noFacColl.CreateBulk [0]).1 = (none, some GoErr.bulkOpAborted) ∧
        storeOps (noFacColl.CreateBulk [0]).2 = []) :=
  ⟨⟨rfl, rfl⟩,
    C4_bulk_abort noFacColl [0] [{ Entry := none, Error := some GoErr.noFactoryFunc }] rfl rfl⟩

/-- C5: when the factory is installed and succeeds on every element of the
parameter list, `CreateBulk` issues exactly one storage operation: a single
batched insert containing all the constructed entries, in input order. -/
theorem C5_bulk_insert (c : MongoCollectionM) (f : Param → Except PanicV MongoEntryV)
    (ps : List Param) (hf : c.factoryFunc = some f)
    (hok : ∀ p ∈ ps, ∃ e, f p = Except.ok e) :
    storeOps (c.CreateBulk ps).2 =
      [StorageOp.insert c.Collection (ps.map fun p => factoryEntry (f p))] := by
  rw [createBulk_events]
  unfold MongoCollectionM.createCore
  rw [createCoreLoop_all_ok c f hf ps hok]
  simp [checkPartFail_map_ok, EntryErrorPairs.MakeEntrySlice, MongoCollectionM.insertCore,
    MongoDbM.Insert, storeOps, storeOps_append, storeOps_factoryCalls, List.map_map,
    Function.comp]

/-- C5 witness: a concrete two-element bulk create issues the single batched
insert with both entries in input order. -/
theorem C5_bulk_insert_witness :
    storeOps (facColl.CreateBulk [1, 2]).2 =
      [StorageOp.insert "c"
        [some { id := [], fields := [("name", 1)] },
          some { id := [], fields := [("name", 2)] }]] :=
  C5_bulk_insert facColl nameFactory [1, 2] rfl
    (fun p _ => ⟨{ id := [], fields := [("name", p)] }, rfl⟩)

/-- C6 counterexample: a panic in the factory during `Create` is NOT caught at
the Collection boundary — the concrete call ends in an uncontrolled panic
(`Except.error 7`), while the very same factory under `CreateBulk` is caught
and converted to the `ProcedureFault` error.  So not every Collection operation
converts faults. -/
theorem C6_counterexample :
    (panicColl.Create 0).1 = Except.error 7 ∧
      (panicColl.CreateBulk [0]).1 = (none, some GoErr.panicked) := ⟨rfl, rfl⟩

/-- C6 (amended): only `CreateBulk` and `ReadAll` install a `recover`: a panic
inside `createCore` (factory execution) is converted by `CreateBulk` into the
`ProcedureFault` error, and a decode panic inside the driver's `FindAll` is
converted by `ReadAll`; `Create` and `Update` propagate factory panics uncaught
(C6_counterexample), though the deferred unlock still releases the lock. -/
theorem C6_panic_conversion :
    (∀ (c : MongoCollectionM) (ps : List Param) (pv : PanicV),
        (c.createCore ps).1 = Except.error pv →
          (c.CreateBulk ps).1 = (none, some GoErr.panicked)) ∧
      (∀ (c : MongoCollectionM) (pv : PanicV),
        c.Database.findAllRes c.Collection = Except.error pv →
          c.ReadAll = (some GoErr.panicked, [Event.store (StorageOp.findAll c.Collection)])) := by
  constructor
  · intro c ps pv h
    rw [createBulk_fst, h]
    rfl
  · intro c pv h
    simp [MongoCollectionM.ReadAll, MongoDbM.FindAll, h, readAllPost]

/-- C6 witness: the amended conversion facts hold at concrete inputs. -/
theorem C6_panic_conversion_witness :
    (panicColl.CreateBulk [1]).1 = (none, some GoErr.panicked) ∧
      panicDbColl.ReadAll = (some GoErr.panicked, [Event.store (StorageOp.findAll "c")]) :=
  ⟨C6_panic_conversion.1 panicColl [1] 7 rfl, C6_panic_conversion.2 panicDbColl 3 rfl⟩

/-- C7 counterexample: the empty string is malformed — not the canonical
24-character hexadecimal form — yet identity parsing accepts it without an
error, producing the empty (invalid) identity. -/
theorem C7_counterexample :
    canonicalIdentityForm "" = false ∧
      GetObjectIDFromString newObjectId "" = ([], none) ∧
      ObjectIdValid [] = false :=
  ⟨rfl, rfl, rfl⟩

/-- C7 (amended): for every malformed input OTHER than the empty string,
identity parsing returns the parse error — alongside the freshly generated id,
which callers must ignore; the empty string is instead accepted without an
error (C7_counterexample), producing the empty, unusable identity. -/
theorem C7_parse_malformed (fresh : Bytes) (s : String) (hne : s ≠ "")
    (hmal : canonicalIdentityForm s = false) :
    GetObjectIDFromString fresh s = (fresh, some (GoErr.invalidObjectId s)) := by
  unfold GetObjectIDFromString
  rw [unmarshal_malformed s hne hmal]

/-- C7 witness: the amended parsing fact at a concrete malformed input. -/
theorem C7_parse_malformed_witness :
    ("zz" ≠ "" ∧ canonicalIdentityForm "zz" = false) ∧
      GetObjectIDFromString newObjectId "zz" =
        (newObjectId, some (GoErr.invalidObjectId "zz")) :=
  ⟨⟨by decide, by decide⟩, C7_parse_malformed newObjectId "zz" (by decide) (by decide)⟩

/-- C8 counterexample: with the malformed (non-canonical) id `""`, `Update`
does NOT return the parse error: the empty string passes the parse, the factory
runs, and a storage write keyed by the empty identity IS issued. -/
theorem C8_counterexample :
    canonicalIdentityForm "" = false ∧
      facColl.Update "" 0 =
        (Except.ok (some { id := [], fields := [("name", 0)] }, none),
          [Event.lockAcquire, Event.factoryCall 0,
            Event.store (StorageOp.updateSet "c" [] { id := [], fields := [("name", 0)] }),
            Event.lockRelease]) :=
  ⟨rfl, rfl⟩

/-- C8 (amended): for every malformed id string OTHER than the empty string and
every params, `Update` returns the `InvalidIdentity` parse error and performs
nothing but the lock bracket — no factory call and no storage write; the empty
string instead passes the parse and leads to a write keyed by the empty
identity (C8_counterexample). -/
theorem C8_update_malformed_id (c : MongoCollectionM) (s : String) (p : Param)
    (hne : s ≠ "") (hmal : canonicalIdentityForm s = false) :
    c.Update s p =
      (Except.ok (none, some (GoErr.invalidObjectId s)),
        [Event.lockAcquire, Event.lockRelease]) := by
  have h := unmarshal_malformed s hne hmal
  unfold MongoCollectionM.Update MongoCollectionM.updateBody GetObjectIDFromString
  rw [h]
  rfl

/-- C8 witness: the amended update fact at a concrete malformed id. -/
theorem C8_update_malformed_id_witness :
    ("w" ≠ "" ∧ canonicalIdentityForm "w" = false) ∧
      facColl.Update "w" 0 =
        (Except.ok (none, some (GoErr.invalidObjectId "w")),
          [Event.lockAcquire, Event.lockRelease]) :=
  ⟨⟨by decide, by decide⟩, C8_update_malformed_id facColl "w" 0 (by decide) (by decide)⟩

/-- C9: every mutating operation — `Insert`, `InsertBulk`, `Create`,
`CreateBulk`, `Update`, `Delete`, `DeleteAll` — emits the lock acquisition
first and the lock release last, and everything else it does (entry
construction and the storage writes) happens strictly between the two lock
events, with no further lock event in between; mutual exclusion of two such
bracketed critical sections is the mutex primitive's semantics. -/
theorem C9_mutating_ops_lock_bracketed :
    (∀ (c : MongoCollectionM) (e : Option MongoEntryV), ∃ mid,
        (c.Insert e).2 = Event.lockAcquire :: mid ++ [Event.lockRelease] ∧
          lockFree mid = true) ∧
      (∀ (c : MongoCollectionM) (es : List (Option MongoEntryV)), ∃ mid,
        (c.InsertBulk es).2 = Event.lockAcquire :: mid ++ [Event.lockRelease] ∧
          lockFree mid = true) ∧
      (∀ (c : MongoCollectionM) (p : Param), ∃ mid,
        (c.Create p).2 = Event.lockAcquire :: mid ++ [Event.lockRelease] ∧
          lockFree mid = true) ∧
      (∀ (c : MongoCollectionM) (ps : List Param), ∃ mid,
        (c.CreateBulk ps).2 = Event.lockAcquire :: mid ++ [Event.lockRelease] ∧
          lockFree mid = true) ∧
      (∀ (c : MongoCollectionM) (s : String) (p : Param), ∃ mid,
        (c.Update s p).2 = Event.lockAcquire :: mid ++ [Event.lockRelease] ∧
          lockFree mid = true) ∧
      (∀ (c : MongoCollectionM) (s : String), ∃ mid,
        (c.Delete s).2 = Event.lockAcquire :: mid ++ [Event.lockRelease] ∧
          lockFree mid = true) ∧
      (∀ (c : MongoCollectionM), ∃ mid,
        (c.DeleteAll).2 = Event.lockAcquire :: mid ++ [Event.lockRelease] ∧
          lockFree mid = true) :=
  ⟨fun c e => ⟨(c.insertCore [e]).2, rfl, lockFree_insertCore c [e]⟩,
    fun c es => ⟨(c.insertCore es).2, rfl, lockFree_insertCore c es⟩,
    fun c p => ⟨(c.createCore [p]).2, rfl, lockFree_createCore c [p]⟩,
    fun c ps => ⟨(c.createCore ps).2, rfl, lockFree_createCore c ps⟩,
    fun c s p => ⟨(c.updateBody s p).2, rfl, lockFree_updateBody c s p⟩,
    fun c s => ⟨(c.deleteBody s).2, rfl, lockFree_deleteBody c s⟩,
    fun c => ⟨(c.Database.RemoveAll c.Collection).2, rfl, rfl⟩⟩

/-- C10: `CreateBulk` on the empty parameter list does not abort — the
partial-failure check on the empty pair sequence reports no failure — and the
whole event trace is the lock bracket around exactly one batched insert
carrying zero documents. -/
theorem C10_createBulk_empty (c : MongoCollectionM) :
    EntryErrorPairs.CheckPartFail [] = false ∧
      (c.CreateBulk []).2 =
        [Event.lockAcquire, Event.store (StorageOp.insert c.Collection []),
          Event.lockRelease] :=
  ⟨rfl, rfl⟩

end MgoHelpers
